import Mathlib

set_option maxRecDepth 8000

/-!
Verification of the advanced-voice plugin (`src/index.js`) and, for the
parts of the voice session engine whose source is not in the repository
snapshot, of models written from the specification (`spec.md`).

Conventions of the embedding:
* JavaScript objects become Lean structures; a field that may be absent
  becomes an `Option`.
* The JavaScript `x || d` idiom is embedded with its real semantics
  (falsy values — absent field, empty string, null — select the default).
* The asynchronous poll loop of the `advanced_voice_call` handler is
  embedded with an idealised clock: each iteration costs exactly the
  5000 ms sleep, network time being idealised as instantaneous, which is
  the reference reading of the 5-second interval / 5-minute deadline.
* Effects (HTTP requests issued) are made explicit as returned lists.
-/

/-- Authentication state of a call session (spec §3): `unauthenticated`
or `authenticated`. -/
inductive AuthState where
  | unauthenticated
  | authenticated
deriving DecidableEq, Repr

/-- Splits a character stream into maximal whitespace-free words,
dropping all whitespace; `acc` holds the reversed current word. -/
def wordsAux (acc : List Char) : List Char → List (List Char)
  | [] => if acc.isEmpty then [] else [acc.reverse]
  | c :: cs =>
      if c.isWhitespace then
        if acc.isEmpty then wordsAux [] cs else acc.reverse :: wordsAux [] cs
      else wordsAux (c :: acc) cs

/-- Rejoins words with single spaces. -/
def joinWords : List (List Char) → List Char
  | [] => []
  | [w] => w
  | w :: ws => w ++ ' ' :: joinWords ws

/-- Modelled from the spec: whitespace normalisation used by the
Authentication Gate (spec §4.2, "case-insensitive, whitespace-normalized
containment matching") — the gate's source (python voice server) is not
in the repository snapshot.  Lower-cases the text, splits on whitespace,
drops empty fragments and rejoins with single spaces. -/
def normalizeChars (s : List Char) : List Char :=
  joinWords (wordsAux [] (s.map Char.toLower))

/-- String-level view of the normalisation. -/
def normalizeText (s : String) : String :=
  String.mk (normalizeChars s.data)

/-- Bool-valued containment of `needle` as a contiguous sublist of `hay`. -/
def containsSub (hay needle : List Char) : Bool :=
  match hay with
  | [] => needle.isEmpty
  | _ :: t => needle.isPrefixOf hay || containsSub t needle

/-- Modelled from the spec: the Authentication Gate's matcher (spec §4.2)
— containment of the normalised passphrase inside the normalised
utterance. -/
def passphraseMatches (pass utterance : String) : Bool :=
  containsSub (normalizeChars utterance.data) (normalizeChars pass.data)

/-- Modelled from the spec: the Authentication Gate's pure transition
function `(currentState, utteranceText) → nextState` (spec §4.2).  An
authenticated session stays authenticated; an unauthenticated one
becomes authenticated exactly when the utterance contains the
passphrase. -/
def gateStep (pass : String) (st : AuthState) (utterance : String) : AuthState :=
  match st with
  | .authenticated => .authenticated
  | .unauthenticated =>
      if passphraseMatches pass utterance then .authenticated else .unauthenticated

/-- Folding the gate over the recognised utterances of a call, in order. -/
def runGate (pass : String) (st : AuthState) (us : List String) : AuthState :=
  us.foldl (gateStep pass) st

/-- An event a call session reacts to: a recognised caller utterance, or
a structured tool-invocation event from the AI leg. -/
inductive SessionEvent where
  | utterance (text : String)
  | toolInvocation (tool : String) (args : String)
deriving DecidableEq, Repr

/-- A request the session sends to the System 2 backend via the Tool
Relay Client. -/
inductive BackendCall where
  | invoke (tool : String) (args : String)
deriving DecidableEq, Repr

/-- The session's answer to the AI leg for a tool-invocation event. -/
inductive AiReply where
  | capabilityDenied
  | toolResult (r : String)
deriving DecidableEq, Repr

/-- Modelled from the spec: tool-call interception (spec §4.1): "the
session validates it is in `ACTIVE_AUTHENTICATED`, otherwise responds to
the AI leg with a capability-denied result without contacting the
backend"; valid invocations are forwarded to the Tool Relay Client.
`relay` is the backend's (opaque) response function. -/
def handleToolInvocation (st : AuthState) (tool args : String)
    (relay : String → String → String) : AiReply × List BackendCall :=
  match st with
  | .authenticated => (.toolResult (relay tool args), [.invoke tool args])
  | .unauthenticated => (.capabilityDenied, [])

/-- Modelled from the spec: one step of the Call Session (spec §4.1):
utterances feed the Authentication Gate; tool invocations are
intercepted as in `handleToolInvocation`.  Returns the next
authentication state, the reply to the AI leg (if any) and the backend
calls issued by the step. -/
def sessionStep (pass : String) (relay : String → String → String)
    (st : AuthState) : SessionEvent → AuthState × Option AiReply × List BackendCall
  | .utterance t => (gateStep pass st t, none, [])
  | .toolInvocation tool args =>
      let (reply, calls) := handleToolInvocation st tool args relay
      (st, some reply, calls)

/-- Run of a Call Session over an event trace; records, for each event,
the authentication state in which it was handled and the backend calls
it caused. -/
def runSession (pass : String) (relay : String → String → String) :
    AuthState → List SessionEvent → List (AuthState × SessionEvent × List BackendCall)
  | _, [] => []
  | st, e :: es =>
      let (st', _, calls) := sessionStep pass relay st e
      (st, e, calls) :: runSession pass relay st' es

/-- A JSON value, for the opaque payload fields the handlers pass
through (`result.data`). -/
inductive Json where
  | null
  | bool (b : Bool)
  | num (n : Int)
  | str (s : String)
  | arr (xs : List Json)
  | obj (fields : List (String × Json))

/-- JavaScript truthiness of a JSON value. -/
def jsTruthy : Json → Bool
  | .null => false
  | .bool b => b
  | .num n => n != 0
  | .str s => s != ""
  | .arr _ => true
  | .obj _ => true

/-- Body of an HTTP request issued by the plugin's tools
(`src/index.js`): either `{message, agent_timezone}` (immediate-return
tool, lines 140-143) or `{mission, role, agent_timezone}` (polling
handler, line 346). -/
inductive ReqBody where
  | messageBody (message : String) (agent_timezone : String)
  | missionBody (mission : String) (role : String) (agent_timezone : String)
deriving DecidableEq, Repr

/-- An HTTP request issued by the plugin: method, path, value of the
`X-Voice-Key` header, and JSON body (none for the GET polls). -/
structure Request where
  method : String
  path : String
  voiceKey : String
  body : Option ReqBody
deriving DecidableEq, Repr

/-- The JSON body of a successful `POST /call/number/{to}` response
(`call_sid`, `to`, `from`, `status`); `from` is a Lean keyword, hence
`fromNumber`. -/
structure CallInfo where
  call_sid : String
  toNumber : String
  fromNumber : String
  status : String
deriving DecidableEq, Repr

/-- Outcome of the initiation fetch: `ok` with the parsed JSON, or a
non-ok response whose text the handler reads. -/
inductive InitResp where
  | ok (info : CallInfo)
  | notOk (text : String)
deriving DecidableEq, Repr

/-- Parameters of the immediate-return `advanced_voice_call` tool
(`src/index.js` lines 106-126): `to` required, `message` and `mode`
optional. -/
structure ImmediateParams where
  toNumber : String
  message : Option String
  mode : Option String
deriving DecidableEq, Repr

/-- The destructuring default `mode = "outbound"` of `src/index.js`
line 128; the value is bound but never used afterwards. -/
def effectiveMode (p : ImmediateParams) : String :=
  p.mode.getD "outbound"

/-- The request built by the immediate-return tool's `execute`
(`src/index.js` lines 132-145): `POST /call/number/{to}` with
`X-Voice-Key` set to the configured key and body
`{message: message || "", agent_timezone: "America/Los_Angeles"}`. -/
def immediateRequest (apiKey : String) (p : ImmediateParams) : Request :=
  { method := "POST"
    path := "/call/number/" ++ p.toNumber
    voiceKey := apiKey
    body := some (.messageBody (p.message.getD "") "America/Los_Angeles") }

/-- Result object of the immediate-return tool (`src/index.js` lines
153-159). -/
structure ImmediateResult where
  success : Bool
  callSid : String
  toNumber : String
  fromNumber : String
  status : String
deriving DecidableEq, Repr

/-- Response handling of the immediate-return tool (`src/index.js`
lines 147-160): non-ok throws `Voice call failed: <text>`; ok returns
`{success: true, callSid, to, from, status}` copied from the response
JSON. -/
def immediateExecute (resp : InitResp) : Except String ImmediateResult :=
  match resp with
  | .ok info =>
      .ok { success := true, callSid := info.call_sid, toNumber := info.toNumber,
            fromNumber := info.fromNumber, status := info.status }
  | .notOk text => .error ("Voice call failed: " ++ text)

/-- The whole immediate-return tool invocation: the single request it
issues and the value it returns (or the error it throws) given the
response. -/
def immediateToolRun (apiKey : String) (p : ImmediateParams) (resp : InitResp) :
    Request × Except String ImmediateResult :=
  (immediateRequest apiKey p, immediateExecute resp)

/-- Parameters of the polling `advanced_voice_call` handler
(`src/index.js` lines 317-335): `to` and `mission` required, `role`
optional with destructuring default. -/
structure MissionParams where
  toNumber : String
  mission : String
  role : Option String
deriving DecidableEq, Repr

/-- The initiation request of the polling handler (`src/index.js` lines
340-347): `POST /call/number/{to}` with `X-Voice-Key` and body
`{mission, role, agent_timezone}`. -/
def missionRequest (apiKey : String) (p : MissionParams) : Request :=
  { method := "POST"
    path := "/call/number/" ++ p.toNumber
    voiceKey := apiKey
    body := some (.missionBody p.mission (p.role.getD "personal assistant")
                    "America/Los_Angeles") }

/-- The JSON body of a poll of `GET /call/{sid}/result`, with the fields
the handler reads (`src/index.js` lines 371-393); optional fields are
`Option`. -/
structure PollBody where
  status : String
  success : Bool
  outcome : String
  data : Option Json
  next_steps : Option String
  reason : Option String

/-- One poll attempt as the handler observes it: a network error (the
`catch` at line 396), or an HTTP response with its `ok` flag and body. -/
inductive PollAttempt where
  | netError
  | http (ok : Bool) (body : PollBody)

/-- Constant `MAX_WAIT_MS` of `src/index.js` line 358: 5 minutes. -/
def MAX_WAIT_MS : Nat := 5 * 60 * 1000

/-- Constant `POLL_MS` of `src/index.js` line 359: 5 seconds. -/
def POLL_MS : Nat := 5000

/-- Embedding of `result.data || \x7b\x7d` (`src/index.js` line 379) with JavaScript
falsiness: absent or falsy data becomes the empty object. -/
def dataField : Option Json → Json
  | none => Json.obj []
  | some v => if jsTruthy v then v else Json.obj []

/-- Embedding of `result.next_steps || ""` (`src/index.js` line 380). -/
def nextStepsField (o : Option String) : String :=
  match o with
  | none => ""
  | some s => if s = "" then "" else s

/-- Embedding of `result.reason || "Call ended without mission result"`
(`src/index.js` line 389) with JavaScript falsiness: an absent or empty
`reason` selects the default. -/
def reasonField (o : Option String) : String :=
  match o with
  | none => "Call ended without mission result"
  | some s => if s = "" then "Call ended without mission result" else s

/-- The value the polling handler returns (`src/index.js` lines
374-381, 385-392, 400-407). -/
structure HandlerResult where
  success : Bool
  callSid : String
  toNumber : String
  outcome : String
  data : Json
  next_steps : String

/-- Return value for a poll with `status === "completed"`
(`src/index.js` lines 374-381). -/
def completedResult (ci : CallInfo) (b : PollBody) : HandlerResult :=
  { success := b.success, callSid := ci.call_sid, toNumber := ci.toNumber,
    outcome := b.outcome, data := dataField b.data,
    next_steps := nextStepsField b.next_steps }

/-- Return value for a poll with `status === "failed"` or
`"ended_without_result"` (`src/index.js` lines 385-392). -/
def failureResult (ci : CallInfo) (b : PollBody) : HandlerResult :=
  { success := false, callSid := ci.call_sid, toNumber := ci.toNumber,
    outcome := reasonField b.reason, data := Json.obj [],
    next_steps := "Retry or find alternative approach" }

/-- Return value when the 5-minute deadline passes (`src/index.js`
lines 400-407). -/
def timeoutResult (ci : CallInfo) : HandlerResult :=
  { success := false, callSid := ci.call_sid, toNumber := ci.toNumber,
    outcome := "Timed out waiting for call to complete (5 min)",
    data := Json.obj [], next_steps := "Check call logs" }

/-- The poll request issued each iteration (`src/index.js` lines
366-369): `GET /call/{sid}/result` with the `X-Voice-Key` header. -/
def pollRequest (apiKey sid : String) : Request :=
  { method := "GET", path := "/call/" ++ sid ++ "/result",
    voiceKey := apiKey, body := none }

/-- The poll loop of the polling handler (`src/index.js` lines 362-407)
under the idealised clock: the guard `Date.now() - startTime <
MAX_WAIT_MS` is checked with `elapsed`, the 5-second sleep advances
`elapsed` by `POLL_MS`, then attempt `k` of the (possibly infinite)
response stream `polls` is observed.  `completed` and
`failed`/`ended_without_result` return; everything else — network
error, non-ok response, any other status — keeps polling.  Returns the
handler's value and the list of poll requests issued. -/
def consReq (req : Request) (p : HandlerResult × List Request) :
    HandlerResult × List Request :=
  (p.1, req :: p.2)

def pollLoop (apiKey : String) (ci : CallInfo) (polls : Nat → PollAttempt)
    (k elapsed : Nat) : HandlerResult × List Request :=
  if _h : elapsed < MAX_WAIT_MS then
    match polls k with
    | .netError =>
        consReq (pollRequest apiKey ci.call_sid)
          (pollLoop apiKey ci polls (k + 1) (elapsed + POLL_MS))
    | .http ok body =>
        if ok then
          if body.status = "completed" then
            (completedResult ci body, [pollRequest apiKey ci.call_sid])
          else if body.status = "failed" || body.status = "ended_without_result" then
            (failureResult ci body, [pollRequest apiKey ci.call_sid])
          else
            consReq (pollRequest apiKey ci.call_sid)
              (pollLoop apiKey ci polls (k + 1) (elapsed + POLL_MS))
        else
          consReq (pollRequest apiKey ci.call_sid)
            (pollLoop apiKey ci polls (k + 1) (elapsed + POLL_MS))
  else
    (timeoutResult ci, [])
termination_by MAX_WAIT_MS - elapsed
decreasing_by
  all_goals simp only [MAX_WAIT_MS, POLL_MS] at *
  all_goals omega

/-- The whole polling handler (`src/index.js` lines 336-408): the
initiation request, then — on an ok initiation response — the poll
loop; a non-ok initiation throws `Failed to initiate call: <text>`.
Returns the thrown/returned value and every request issued. -/
def missionHandler (apiKey : String) (p : MissionParams) (init : InitResp)
    (polls : Nat → PollAttempt) : Except String HandlerResult × List Request :=
  let initReq := missionRequest apiKey p
  match init with
  | .notOk text => (.error ("Failed to initiate call: " ++ text), [initReq])
  | .ok ci =>
      (.ok (pollLoop apiKey ci polls 0 0).1,
       initReq :: (pollLoop apiKey ci polls 0 0).2)

/-- A poll attempt the handler treats as terminal: an ok response whose
status is `completed`, `failed` or `ended_without_result`
(`src/index.js` lines 373 and 384). -/
def terminalStatus (s : String) : Bool :=
  s = "completed" || s = "failed" || s = "ended_without_result"

/-- Whether a poll attempt makes the handler return (rather than keep
polling). -/
def terminalAttempt : PollAttempt → Bool
  | .http true b => terminalStatus b.status
  | _ => false

/-- The `security` section of the plugin config (`src/index.js` lines
435-445): `challenge` and `apiKey`, either possibly absent in a given
`openclaw.json`. -/
structure SecurityCfg where
  challenge : Option String
  apiKey : Option String
deriving DecidableEq, Repr

/-- The inputs `onLoad` depends on: the `enabled` flag (destructuring
default `true`, line 202), the `security` section of the user config
(line 207), and the `SECURITY_CHALLENGE` environment variable (line
208). -/
structure PluginCfg where
  enabled : Bool
  securityCfg : Option SecurityCfg
  envChallenge : Option String
deriving DecidableEq, Repr

/-- Value of `pluginConfig.security.challenge` after the resolution of
`src/index.js` lines 207-210: a provided `security` object is taken
whole (`??`), even with `challenge` absent; otherwise the fallback
object carries `config.security?.challenge || process.env.SECURITY_CHALLENGE`,
which with `config.security` nullish is just the environment value. -/
def resolvedChallenge (c : PluginCfg) : Option String :=
  match c.securityCfg with
  | some s => s.challenge
  | none => c.envChallenge

/-- The `SECURITY_CHALLENGE` value passed to the spawned voice server
(`src/index.js` line 256): `pluginConfig.security.challenge || ""`. -/
def challengeEnvVar (c : PluginCfg) : String :=
  match resolvedChallenge c with
  | none => ""
  | some s => s

/-- What `onLoad` does, by its three exit paths. -/
inductive OnLoadOutcome where
  | disabled
  | missingWatchdog
  | started (securityChallenge : String)
deriving DecidableEq, Repr

/-- The control flow of `onLoad` (`src/index.js` lines 229-292): return
early when disabled (line 232) or when `watchdog.py` is missing (line
239); otherwise spawn the watchdog — which runs the voice server — with
`SECURITY_CHALLENGE` set to the resolved challenge or the empty string.
No path inspects whether a passphrase is configured. -/
def onLoadModel (c : PluginCfg) (watchdogExists : Bool) : OnLoadOutcome :=
  if !c.enabled then .disabled
  else if !watchdogExists then .missingWatchdog
  else .started (challengeEnvVar c)

/-- Whether a configuration has no passphrase configured: no `security`
section, no environment variable (or an empty one). -/
def noPassphraseConfigured (c : PluginCfg) : Bool :=
  challengeEnvVar c = ""

/-- Once authenticated, the gate stays authenticated over any further
utterances. -/
theorem runGate_auth (pass : String) (us : List String) :
    runGate pass .authenticated us = .authenticated := by
  induction us with
  | nil => rfl
  | cons u us ih => simpa [runGate, gateStep] using ih

/-- A matching utterance authenticates from any state. -/
theorem gateStep_matches (pass u : String) (st : AuthState)
    (h : passphraseMatches pass u = true) :
    gateStep pass st u = .authenticated := by
  cases st with
  | authenticated => rfl
  | unauthenticated => simp [gateStep, h]

/-- Claim C2: for every configured passphrase and every gate state, an
utterance not containing the passphrase (under the case-insensitive,
whitespace-normalised containment matcher) leaves the state
`unauthenticated`; an utterance containing it transitions the state to
`authenticated`; and the transition is monotonic — wherever a matching
utterance occurs in the call's utterance sequence, the state at the end
of the call is still `authenticated`, whatever follows. -/
theorem gate_containment_and_monotonic
    (pass u : String) (st : AuthState) (pre post : List String) :
    (passphraseMatches pass u = false →
       gateStep pass .unauthenticated u = .unauthenticated)
    ∧ (passphraseMatches pass u = true → gateStep pass st u = .authenticated)
    ∧ (passphraseMatches pass u = true →
       runGate pass st (pre ++ u :: post) = .authenticated) := by
  refine ⟨fun h => by simp [gateStep, h], fun h => gateStep_matches pass u st h, fun h => ?_⟩
  have h1 : runGate pass st (pre ++ u :: post)
      = runGate pass (gateStep pass (runGate pass st pre) u) post := by
    simp [runGate, List.foldl_append]
  rw [h1, gateStep_matches pass u _ h, runGate_auth]

/-- Witness for C2, at the spec §8 scenario: passphrase
`secret-phrase-xyz`; a greeting without it does not authenticate, an
utterance containing it (different case, extra whitespace) does, and a
later unrelated utterance does not revert the state. -/
theorem gate_containment_and_monotonic_witness :
    passphraseMatches "secret-phrase-xyz" "Hi, I need help" = false
    ∧ passphraseMatches "secret-phrase-xyz" "its ramon,  SECRET-PHRASE-XYZ  ok" = true
    ∧ gateStep "secret-phrase-xyz" .unauthenticated "Hi, I need help" = .unauthenticated
    ∧ runGate "secret-phrase-xyz" .unauthenticated
        (["Hi, I need help"] ++ "its ramon,  SECRET-PHRASE-XYZ  ok" :: ["goodbye now"])
        = .authenticated := by
  refine ⟨by decide, by decide, ?_, ?_⟩
  · exact (gate_containment_and_monotonic "secret-phrase-xyz" "Hi, I need help"
      .unauthenticated [] []).1 (by decide)
  · exact (gate_containment_and_monotonic "secret-phrase-xyz"
      "its ramon,  SECRET-PHRASE-XYZ  ok" .unauthenticated
      ["Hi, I need help"] ["goodbye now"]).2.2 (by decide)

/-- Claim C1: a tool invocation handled while the session's
authentication state is `unauthenticated` is answered with a
capability-denied result and produces no backend call; consequently, on
any event trace, every step handled in the `unauthenticated` state
issues no backend call. -/
theorem unauthenticated_tool_invocation_denied
    (pass : String) (relay : String → String → String) (tool args : String)
    (st0 : AuthState) (evts : List SessionEvent)
    (entry : AuthState × SessionEvent × List BackendCall) :
    sessionStep pass relay .unauthenticated (.toolInvocation tool args)
      = (.unauthenticated, some .capabilityDenied, [])
    ∧ (entry ∈ runSession pass relay st0 evts → entry.1 = .unauthenticated →
        entry.2.2 = []) := by
  refine ⟨rfl, ?_⟩
  induction evts generalizing st0 with
  | nil => intro h; simp [runSession] at h
  | cons e es ih =>
      intro hmem hun
      rw [runSession] at hmem
      rcases List.mem_cons.mp hmem with heq | htail
      · subst heq
        cases e with
        | utterance t => rfl
        | toolInvocation tl ag =>
            simp only at hun
            subst hun
            rfl
      · exact ih _ htail hun

/-- Witness for C1: a concrete inbound trace — greeting, a denied tool
invocation while unauthenticated, the passphrase, then a forwarded tool
invocation; the unauthenticated entry of the run issues no backend
call. -/
theorem unauthenticated_tool_invocation_denied_witness :
    ((.unauthenticated, .toolInvocation "get_time" "\x7b\x7d", ([] : List BackendCall))
        ∈ runSession "secret-phrase-xyz" (fun _ _ => "ok") .unauthenticated
          [.utterance "Hi, I need help", .toolInvocation "get_time" "\x7b\x7d",
           .utterance "secret-phrase-xyz", .toolInvocation "get_time" "\x7b\x7d"])
    ∧ ([] : List BackendCall) = [] := by
  refine ⟨by decide, ?_⟩
  exact (unauthenticated_tool_invocation_denied "secret-phrase-xyz"
      (fun _ _ => "ok") "get_time" "\x7b\x7d" .unauthenticated
      [.utterance "Hi, I need help", .toolInvocation "get_time" "\x7b\x7d",
       .utterance "secret-phrase-xyz", .toolInvocation "get_time" "\x7b\x7d"]
      (.unauthenticated, .toolInvocation "get_time" "\x7b\x7d", [])).2
    (by decide) rfl

/-- A non-terminal poll attempt (network error, non-ok response, or any
status other than the three terminal ones) makes the loop issue the poll
request and continue with the clock advanced by one sleep. -/
theorem pollLoop_step (apiKey : String) (ci : CallInfo)
    (polls : Nat → PollAttempt) (k elapsed : Nat)
    (h : elapsed < MAX_WAIT_MS) (hnt : terminalAttempt (polls k) = false) :
    pollLoop apiKey ci polls k elapsed
      = ((pollLoop apiKey ci polls (k + 1) (elapsed + POLL_MS)).1,
         pollRequest apiKey ci.call_sid
           :: (pollLoop apiKey ci polls (k + 1) (elapsed + POLL_MS)).2) := by
  rw [pollLoop.eq_def, dif_pos h]
  cases hp : polls k with
  | netError => simp [consReq]
  | http ok body =>
      cases ok with
      | false => simp [consReq]
      | true =>
          rw [hp] at hnt
          simp only [terminalAttempt, terminalStatus, Bool.or_eq_false_iff,
            decide_eq_false_iff_not] at hnt
          obtain ⟨⟨h1, h2⟩, h3⟩ := hnt
          simp [h1, h2, h3, consReq]

/-- If no poll attempt is ever terminal, starting `n ≤ 60` sleeps before
the deadline the loop issues exactly `n` poll requests and returns the
timed-out result. -/
theorem pollLoop_timeout_aux (apiKey : String) (ci : CallInfo)
    (polls : Nat → PollAttempt) (hnt : ∀ j, terminalAttempt (polls j) = false) :
    ∀ n, n ≤ 60 → ∀ k, pollLoop apiKey ci polls k (MAX_WAIT_MS - n * POLL_MS)
      = (timeoutResult ci, List.replicate n (pollRequest apiKey ci.call_sid)) := by
  intro n
  induction n with
  | zero =>
      intro _ k
      rw [pollLoop.eq_def]
      simp
  | succ n ih =>
      intro hle k
      have h1 : MAX_WAIT_MS - (n + 1) * POLL_MS < MAX_WAIT_MS := by
        simp only [MAX_WAIT_MS, POLL_MS]; omega
      rw [pollLoop_step apiKey ci polls k _ h1 (hnt k)]
      have h2 : MAX_WAIT_MS - (n + 1) * POLL_MS + POLL_MS = MAX_WAIT_MS - n * POLL_MS := by
        simp only [MAX_WAIT_MS, POLL_MS] at *; omega
      rw [h2, ih (by omega) (k + 1)]
      simp [List.replicate_succ]

/-- Claim C4: with the reference clock, the polling handler polls the
result endpoint every `POLL_MS` = 5 s, gives up once `MAX_WAIT_MS` =
5 min of polling have elapsed — i.e. after exactly 60 polls when no
terminal status ever appears — returns the timed-out result with
`success = false`, and every request it ever issues is the one
initiation `POST` or a result-endpoint `GET`: no request cancelling the
underlying call is issued. -/
theorem handler_polls_then_times_out_without_cancel
    (apiKey : String) (mp : MissionParams) (ci : CallInfo)
    (polls : Nat → PollAttempt)
    (hnt : ∀ j, terminalAttempt (polls j) = false) :
    MAX_WAIT_MS = 5 * 60 * 1000 ∧ POLL_MS = 5000
    ∧ missionHandler apiKey mp (.ok ci) polls
        = (.ok (timeoutResult ci),
           missionRequest apiKey mp
             :: List.replicate 60 (pollRequest apiKey ci.call_sid))
    ∧ (timeoutResult ci).success = false
    ∧ ∀ r ∈ (missionHandler apiKey mp (.ok ci) polls).2,
        (r = missionRequest apiKey mp ∨ r = pollRequest apiKey ci.call_sid)
        ∧ (r.method = "POST" ∨ r.method = "GET") := by
  have h0 : (0 : Nat) = MAX_WAIT_MS - 60 * POLL_MS := by
    simp [MAX_WAIT_MS, POLL_MS]
  have hloop : pollLoop apiKey ci polls 0 0
      = (timeoutResult ci, List.replicate 60 (pollRequest apiKey ci.call_sid)) := by
    rw [show pollLoop apiKey ci polls 0 0
        = pollLoop apiKey ci polls 0 (MAX_WAIT_MS - 60 * POLL_MS) from by rw [← h0]]
    exact pollLoop_timeout_aux apiKey ci polls hnt 60 le_rfl 0
  have hh : missionHandler apiKey mp (.ok ci) polls
      = (.ok (timeoutResult ci),
         missionRequest apiKey mp
           :: List.replicate 60 (pollRequest apiKey ci.call_sid)) := by
    simp [missionHandler, hloop]
  refine ⟨rfl, rfl, hh, rfl, ?_⟩
  intro r hr
  rw [hh] at hr
  rcases List.mem_cons.mp hr with h | h
  · subst h
    exact ⟨Or.inl rfl, Or.inl rfl⟩
  · have := List.eq_of_mem_replicate h
    subst this
    exact ⟨Or.inr rfl, Or.inr rfl⟩

/-- Witness for C4: a server that forever reports `in_progress`. -/
theorem handler_polls_then_times_out_without_cancel_witness :
    (∀ j : Nat, terminalAttempt
        ((fun _ : Nat => PollAttempt.http true
            ⟨"in_progress", false, "", none, none, none⟩) j) = false)
    ∧ missionHandler "k" ⟨"+14155551234", "confirm the 3pm meeting", none⟩
        (.ok ⟨"CA1", "+14155551234", "+15550100", "queued"⟩)
        (fun _ : Nat => PollAttempt.http true ⟨"in_progress", false, "", none, none, none⟩)
        = (.ok (timeoutResult ⟨"CA1", "+14155551234", "+15550100", "queued"⟩),
           missionRequest "k" ⟨"+14155551234", "confirm the 3pm meeting", none⟩
             :: List.replicate 60 (pollRequest "k" "CA1")) := by
  refine ⟨fun j => rfl, ?_⟩
  exact (handler_polls_then_times_out_without_cancel "k"
      ⟨"+14155551234", "confirm the 3pm meeting", none⟩
      ⟨"CA1", "+14155551234", "+15550100", "queued"⟩
      (fun _ : Nat => PollAttempt.http true ⟨"in_progress", false, "", none, none, none⟩)
      (fun j => rfl)).2.2.1

/-- Claim C9: the poll loop treats exactly `completed`, `failed` and
`ended_without_result` as terminal — any other status (`timed_out`,
`in_progress`, anything else) keeps it polling — and on any response
stream in which none of the three ever appears it (always terminating,
being a total function) returns after the deadline with
`success = false` and the 5-minute timeout outcome. -/
theorem handler_terminates_with_timeout
    (apiKey : String) (ci : CallInfo) (polls : Nat → PollAttempt) (s : String)
    (hnt : ∀ j, terminalAttempt (polls j) = false) :
    (terminalStatus s = true →
        s = "completed" ∨ s = "failed" ∨ s = "ended_without_result")
    ∧ terminalStatus "timed_out" = false
    ∧ terminalStatus "in_progress" = false
    ∧ (pollLoop apiKey ci polls 0 0).1 = timeoutResult ci
    ∧ (pollLoop apiKey ci polls 0 0).1.success = false
    ∧ (pollLoop apiKey ci polls 0 0).1.outcome
        = "Timed out waiting for call to complete (5 min)" := by
  have h0 : (0 : Nat) = MAX_WAIT_MS - 60 * POLL_MS := by
    simp [MAX_WAIT_MS, POLL_MS]
  have hloop : pollLoop apiKey ci polls 0 0
      = (timeoutResult ci, List.replicate 60 (pollRequest apiKey ci.call_sid)) := by
    rw [show pollLoop apiKey ci polls 0 0
        = pollLoop apiKey ci polls 0 (MAX_WAIT_MS - 60 * POLL_MS) from by rw [← h0]]
    exact pollLoop_timeout_aux apiKey ci polls hnt 60 le_rfl 0
  refine ⟨?_, rfl, rfl, by rw [hloop], by rw [hloop]; rfl, by rw [hloop]; rfl⟩
  intro hs
  simp only [terminalStatus, Bool.or_eq_true, decide_eq_true_eq] at hs
  tauto

/-- Witness for C9: a server that forever answers with the status
`timed_out`, which is not one of the three terminal statuses. -/
theorem handler_terminates_with_timeout_witness :
    (∀ j : Nat, terminalAttempt
        ((fun _ : Nat => PollAttempt.http true
            ⟨"timed_out", false, "", none, none, none⟩) j) = false)
    ∧ (pollLoop "k" ⟨"CA2", "+14155551234", "+15550100", "queued"⟩
        (fun _ : Nat => PollAttempt.http true ⟨"timed_out", false, "", none, none, none⟩)
        0 0).1.outcome = "Timed out waiting for call to complete (5 min)" := by
  refine ⟨fun j => rfl, ?_⟩
  exact (handler_terminates_with_timeout "k" ⟨"CA2", "+14155551234", "+15550100", "queued"⟩
      (fun _ : Nat => PollAttempt.http true ⟨"timed_out", false, "", none, none, none⟩)
      "timed_out" (fun j => rfl)).2.2.2.2.2

/-- Claim C6: a poll that yields a network error or a non-ok HTTP
response is treated as "keep polling": the loop neither throws nor
returns for that poll — its value is exactly the value of the loop
continued one sleep later, with that poll's request recorded in the
trace. -/
theorem poll_error_keeps_polling
    (apiKey : String) (ci : CallInfo) (polls : Nat → PollAttempt) (k elapsed : Nat)
    (h : elapsed < MAX_WAIT_MS)
    (herr : polls k = .netError ∨ ∃ b, polls k = .http false b) :
    pollLoop apiKey ci polls k elapsed
      = ((pollLoop apiKey ci polls (k + 1) (elapsed + POLL_MS)).1,
         pollRequest apiKey ci.call_sid
           :: (pollLoop apiKey ci polls (k + 1) (elapsed + POLL_MS)).2) := by
  refine pollLoop_step apiKey ci polls k elapsed h ?_
  rcases herr with he | ⟨b, he⟩ <;> simp [terminalAttempt, he]

/-- Witness for C6: a first poll that hits a 404-style non-ok response,
then a network error, then a completed call; the loop's value from the
start equals its value after skipping the failed poll. -/
theorem poll_error_keeps_polling_witness :
    ((0 : Nat) < MAX_WAIT_MS)
    ∧ ((fun j : Nat => if j = 0 then PollAttempt.http false ⟨"", false, "", none, none, none⟩
          else if j = 1 then PollAttempt.netError
          else PollAttempt.http true ⟨"completed", true, "done", none, none, none⟩) 0
        = .netError
      ∨ ∃ b, (fun j : Nat => if j = 0 then PollAttempt.http false ⟨"", false, "", none, none, none⟩
          else if j = 1 then PollAttempt.netError
          else PollAttempt.http true ⟨"completed", true, "done", none, none, none⟩) 0
        = .http false b)
    ∧ pollLoop "k" ⟨"CA3", "+1", "+2", "queued"⟩
        (fun j : Nat => if j = 0 then PollAttempt.http false ⟨"", false, "", none, none, none⟩
          else if j = 1 then PollAttempt.netError
          else PollAttempt.http true ⟨"completed", true, "done", none, none, none⟩) 0 0
      = ((pollLoop "k" ⟨"CA3", "+1", "+2", "queued"⟩
            (fun j : Nat => if j = 0 then PollAttempt.http false ⟨"", false, "", none, none, none⟩
              else if j = 1 then PollAttempt.netError
              else PollAttempt.http true ⟨"completed", true, "done", none, none, none⟩)
            1 POLL_MS).1,
         pollRequest "k" "CA3"
           :: (pollLoop "k" ⟨"CA3", "+1", "+2", "queued"⟩
                (fun j : Nat => if j = 0 then PollAttempt.http false ⟨"", false, "", none, none, none⟩
                  else if j = 1 then PollAttempt.netError
                  else PollAttempt.http true ⟨"completed", true, "done", none, none, none⟩)
                1 POLL_MS).2) := by
  refine ⟨by simp [MAX_WAIT_MS], Or.inr ⟨⟨"", false, "", none, none, none⟩, rfl⟩, ?_⟩
  exact poll_error_keeps_polling "k" ⟨"CA3", "+1", "+2", "queued"⟩
    (fun j : Nat => if j = 0 then PollAttempt.http false ⟨"", false, "", none, none, none⟩
      else if j = 1 then PollAttempt.netError
      else PollAttempt.http true ⟨"completed", true, "done", none, none, none⟩) 0 0
    (by simp [MAX_WAIT_MS])
    (Or.inr ⟨⟨"", false, "", none, none, none⟩, rfl⟩)

/-- If the first `i` polls (from `k`) are non-terminal and poll `k + i`
is an ok `completed` response reached before the deadline, the loop
issues exactly `i + 1` poll requests and returns the completed
result. -/
theorem pollLoop_completed_aux (apiKey : String) (ci : CallInfo)
    (polls : Nat → PollAttempt) (b : PollBody) (hb : b.status = "completed") :
    ∀ i k elapsed, elapsed + i * POLL_MS < MAX_WAIT_MS →
      (∀ j, j < i → terminalAttempt (polls (k + j)) = false) →
      polls (k + i) = .http true b →
      pollLoop apiKey ci polls k elapsed
        = (completedResult ci b,
           List.replicate (i + 1) (pollRequest apiKey ci.call_sid)) := by
  intro i
  induction i with
  | zero =>
      intro k elapsed hlt _ hc
      rw [pollLoop.eq_def, dif_pos (by simpa using hlt)]
      simp only [Nat.add_zero] at hc
      simp [hc, hb]
  | succ i ih =>
      intro k elapsed hlt hpre hc
      have h0 : elapsed < MAX_WAIT_MS := by
        have : elapsed ≤ elapsed + (i + 1) * POLL_MS := Nat.le_add_right _ _
        omega
      rw [pollLoop_step apiKey ci polls k elapsed h0
            (by simpa using hpre 0 (Nat.succ_pos i))]
      rw [ih (k + 1) (elapsed + POLL_MS)
            (by simp only [POLL_MS, MAX_WAIT_MS] at *; omega)
            (fun j hj => by
              have := hpre (j + 1) (by omega)
              simpa [Nat.add_assoc, Nat.add_comm 1 j] using this)
            (by
              have hidx : k + 1 + i = k + (i + 1) := by omega
              rw [hidx]; exact hc)]
      simp [List.replicate_succ]

/-- Claim C5: when polls `0..i-1` are non-terminal and poll `i` (within
the deadline) first reports `completed` with a payload carrying
`success`, `outcome`, a structured-object `data` and a string
`next_steps`, the handler returns only at that poll — it issues exactly
`i + 1` poll requests, never returning the terminal payload earlier —
and its value copies exactly that response's success flag, outcome,
data and next steps. -/
theorem handler_returns_first_completed_payload
    (apiKey : String) (ci : CallInfo) (polls : Nat → PollAttempt)
    (i : Nat) (b : PollBody) (ds : List (String × Json)) (ns : String)
    (hi : i < 60)
    (hpre : ∀ j, j < i → terminalAttempt (polls j) = false)
    (hc : polls i = .http true b)
    (hst : b.status = "completed")
    (hdata : b.data = some (Json.obj ds))
    (hns : b.next_steps = some ns) :
    pollLoop apiKey ci polls 0 0
      = (completedResult ci b,
         List.replicate (i + 1) (pollRequest apiKey ci.call_sid))
    ∧ (pollLoop apiKey ci polls 0 0).2.length = i + 1
    ∧ (pollLoop apiKey ci polls 0 0).1.success = b.success
    ∧ (pollLoop apiKey ci polls 0 0).1.outcome = b.outcome
    ∧ (pollLoop apiKey ci polls 0 0).1.data = Json.obj ds
    ∧ (pollLoop apiKey ci polls 0 0).1.next_steps = ns := by
  have hrun : pollLoop apiKey ci polls 0 0
      = (completedResult ci b,
         List.replicate (i + 1) (pollRequest apiKey ci.call_sid)) := by
    refine pollLoop_completed_aux apiKey ci polls b hst i 0 0 ?_
      (fun j hj => by simpa using hpre j hj) (by simpa using hc)
    simp only [MAX_WAIT_MS, POLL_MS]
    omega
  refine ⟨hrun, by rw [hrun]; simp, by rw [hrun]; rfl, by rw [hrun]; rfl, ?_, ?_⟩
  · rw [hrun]
    show dataField b.data = Json.obj ds
    rw [hdata]
    rfl
  · rw [hrun]
    show nextStepsField b.next_steps = ns
    rw [hns]
    cases hns' : decide (ns = "") with
    | false => simp [nextStepsField, of_decide_eq_false hns']
    | true => simp [nextStepsField, of_decide_eq_true hns']

/-- Witness for C5: two `in_progress` polls, then `completed` at poll 2
with `{success: true, outcome: "left message", data: {}, next_steps: "none"}`. -/
theorem handler_returns_first_completed_payload_witness :
    ((2 : Nat) < 60)
    ∧ (pollLoop "k" ⟨"CA4", "+1", "+2", "queued"⟩
        (fun j : Nat => if j < 2 then PollAttempt.http true ⟨"in_progress", false, "", none, none, none⟩
          else PollAttempt.http true
            ⟨"completed", true, "left message", some (Json.obj []), some "none", none⟩)
        0 0).1.outcome = "left message"
    ∧ (pollLoop "k" ⟨"CA4", "+1", "+2", "queued"⟩
        (fun j : Nat => if j < 2 then PollAttempt.http true ⟨"in_progress", false, "", none, none, none⟩
          else PollAttempt.http true
            ⟨"completed", true, "left message", some (Json.obj []), some "none", none⟩)
        0 0).2.length = 3 := by
  have h := handler_returns_first_completed_payload "k" ⟨"CA4", "+1", "+2", "queued"⟩
    (fun j : Nat => if j < 2 then PollAttempt.http true ⟨"in_progress", false, "", none, none, none⟩
      else PollAttempt.http true
        ⟨"completed", true, "left message", some (Json.obj []), some "none", none⟩)
    2 ⟨"completed", true, "left message", some (Json.obj []), some "none", none⟩
    [] "none" (by omega)
    (fun j hj => by interval_cases j <;> rfl)
    (by simp) rfl rfl rfl
  exact ⟨by omega, h.2.2.2.1, h.2.1⟩

/-- Claim C7: the `advanced_voice_call` tool issues
`POST /call/number/{to}` with the `X-Voice-Key` header set to the
configured secret and a JSON body carrying the message (immediate-return
variant) or the mission and role (polling variant) together with
`agent_timezone`; an ok response yields `{success: true, callSid, to,
from, status}` copied from the response's `call_sid`, `to`, `from` and
`status`; a non-ok response makes the tool throw an error containing the
response text instead of returning a result. -/
theorem call_tool_request_and_response_contract
    (apiKey text : String) (p : ImmediateParams) (info : CallInfo)
    (mp : MissionParams) (polls : Nat → PollAttempt) :
    immediateRequest apiKey p
      = { method := "POST", path := "/call/number/" ++ p.toNumber,
          voiceKey := apiKey,
          body := some (.messageBody (p.message.getD "") "America/Los_Angeles") }
    ∧ immediateExecute (.ok info)
      = .ok { success := true, callSid := info.call_sid,
              toNumber := info.toNumber, fromNumber := info.fromNumber,
              status := info.status }
    ∧ immediateExecute (.notOk text) = .error ("Voice call failed: " ++ text)
    ∧ missionRequest apiKey mp
      = { method := "POST", path := "/call/number/" ++ mp.toNumber,
          voiceKey := apiKey,
          body := some (.missionBody mp.mission (mp.role.getD "personal assistant")
                          "America/Los_Angeles") }
    ∧ (missionHandler apiKey mp (.notOk text) polls).1
      = .error ("Failed to initiate call: " ++ text) :=
  ⟨rfl, rfl, rfl, rfl, rfl⟩

/-- Claim C8: two invocations of the immediate-return
`advanced_voice_call` tool identical except for `mode` issue the same
HTTP request and return the same value: the declared `mode` parameter
has no observable effect. -/
theorem mode_parameter_no_observable_effect
    (apiKey toN : String) (msg m1 m2 : Option String) (resp : InitResp) :
    immediateToolRun apiKey ⟨toN, msg, m1⟩ resp
      = immediateToolRun apiKey ⟨toN, msg, m2⟩ resp :=
  rfl

/-- Claim C3 (code bug, evaluated at the failing input): with no
`security` section in the config and no `SECURITY_CHALLENGE` in the
environment — i.e. no passphrase configured — `onLoad` does not fail:
it starts the watchdog (and hence the voice server) with
`SECURITY_CHALLENGE` set to the empty string. -/
theorem onload_starts_despite_missing_passphrase :
    noPassphraseConfigured ⟨true, none, none⟩ = true
    ∧ resolvedChallenge ⟨true, none, none⟩ = none
    ∧ onLoadModel ⟨true, none, none⟩ true = .started "" :=
  ⟨rfl, rfl, rfl⟩

/-- Counterexample to claim C10 as stated: a `failed` poll whose
`reason` field is present but the empty string.  The claim asserts the
returned outcome then equals the `reason` field (`""`); the code's
`result.reason || "Call ended without mission result"` treats the empty
string as falsy, so the handler returns the default text instead. -/
theorem failure_reason_empty_string_counterexample :
    (⟨"failed", true, "server outcome text", none, none, some ""⟩ : PollBody).reason
      = some ""
    ∧ (pollLoop "k" ⟨"CA5", "+1", "+2", "queued"⟩
        (fun _ : Nat => PollAttempt.http true
          ⟨"failed", true, "server outcome text", none, none, some ""⟩) 0 0).1.outcome
      = "Call ended without mission result"
    ∧ ¬ ((pollLoop "k" ⟨"CA5", "+1", "+2", "queued"⟩
        (fun _ : Nat => PollAttempt.http true
          ⟨"failed", true, "server outcome text", none, none, some ""⟩) 0 0).1.outcome
      = "") := by
  have hl : pollLoop "k" ⟨"CA5", "+1", "+2", "queued"⟩
      (fun _ : Nat => PollAttempt.http true
        ⟨"failed", true, "server outcome text", none, none, some ""⟩) 0 0
      = (failureResult ⟨"CA5", "+1", "+2", "queued"⟩
          ⟨"failed", true, "server outcome text", none, none, some ""⟩,
         [pollRequest "k" "CA5"]) := by
    rw [pollLoop.eq_def, dif_pos (by simp [MAX_WAIT_MS])]
    simp
  refine ⟨rfl, by rw [hl]; rfl, by rw [hl]; simp [failureResult, reasonField]⟩

/-- Claim C10 as amended: a `failed` or `ended_without_result` poll
makes the handler return `success = false`, empty data, next steps
"Retry or find alternative approach", and an outcome equal to the
response's `reason` field when that field is present and non-empty,
otherwise "Call ended without mission result"; the response's `outcome`
field is not used (the value depends on the body only through
`reason`). -/
theorem failure_branch_fields
    (apiKey : String) (ci : CallInfo) (polls : Nat → PollAttempt)
    (k elapsed : Nat) (b : PollBody) (s : String)
    (h : elapsed < MAX_WAIT_MS)
    (hp : polls k = .http true b)
    (hst : b.status = "failed" ∨ b.status = "ended_without_result") :
    (pollLoop apiKey ci polls k elapsed).1 = failureResult ci b
    ∧ (failureResult ci b).success = false
    ∧ (failureResult ci b).data = Json.obj []
    ∧ (failureResult ci b).next_steps = "Retry or find alternative approach"
    ∧ (failureResult ci b).outcome = reasonField b.reason
    ∧ (s ≠ "" → reasonField (some s) = s)
    ∧ reasonField none = "Call ended without mission result"
    ∧ reasonField (some "") = "Call ended without mission result"
    ∧ (∀ b' : PollBody, b'.reason = b.reason →
        failureResult ci b' = failureResult ci b) := by
  have hrun : (pollLoop apiKey ci polls k elapsed).1 = failureResult ci b := by
    rcases hst with h1 | h1 <;> rw [pollLoop.eq_def, dif_pos h] <;> simp [hp, h1]
  refine ⟨hrun, rfl, rfl, rfl, rfl, ?_, rfl, rfl, ?_⟩
  · intro hs
    simp [reasonField, hs]
  · intro b' hr
    simp [failureResult, hr]

/-- Witness for the amended C10: an `ended_without_result` poll with
`reason: "line busy"`; the outcome is the reason. -/
theorem failure_branch_fields_witness :
    ((0 : Nat) < MAX_WAIT_MS)
    ∧ ((fun _ : Nat => PollAttempt.http true
          ⟨"ended_without_result", false, "ignored", none, none, some "line busy"⟩) 0
        = PollAttempt.http true
          ⟨"ended_without_result", false, "ignored", none, none, some "line busy"⟩)
    ∧ (pollLoop "k" ⟨"CA6", "+1", "+2", "queued"⟩
        (fun _ : Nat => PollAttempt.http true
          ⟨"ended_without_result", false, "ignored", none, none, some "line busy"⟩)
        0 0).1
      = failureResult ⟨"CA6", "+1", "+2", "queued"⟩
          ⟨"ended_without_result", false, "ignored", none, none, some "line busy"⟩
    ∧ reasonField (some "line busy") = "line busy" := by
  have h := failure_branch_fields "k" ⟨"CA6", "+1", "+2", "queued"⟩
    (fun _ : Nat => PollAttempt.http true
      ⟨"ended_without_result", false, "ignored", none, none, some "line busy"⟩)
    0 0 ⟨"ended_without_result", false, "ignored", none, none, some "line busy"⟩
    "line busy" (by simp [MAX_WAIT_MS]) rfl (Or.inr rfl)
  exact ⟨by simp [MAX_WAIT_MS], rfl, h.1, h.2.2.2.2.2.1 (by simp)⟩
